import Mathlib

/-!
Shallow embedding of `colour_analysis/visuals/rgb_colourspace.py`.

The module defines three functions — `RGB_identity_cube`,
`RGB_colourspace_volume_visual` and `RGB_colourspace_triangle_visual` — that
build vispy scene-graph visuals from colour-science transforms.  External
library routines (vispy's `create_box`; colour-science's `get_RGB_colourspace`,
`RGB_to_XYZ`, `xy_to_XYZ`, `XYZ_to_reference_colourspace`; the project's
chromaticity-diagram transformation table and default illuminant) are
abstracted as an environment `Env` of arbitrary functions, so theorems
quantify over every possible behaviour of those libraries.  The vispy scene
graph is modelled as an explicit store (`World`, a list of node records);
creating a visual appends a record, and mutating a mesh updates its record,
mirroring the Python object mutations.
-/

namespace ColourAnalysis

/-- IEEE-754-style scalar used by the numpy arrays of the module: a finite
value (modelled as a rational), positive/negative infinity, or NaN.  This
tracks exactly the distinction `np.isnan` relies on. -/
inductive PyFloat where
  | fin (q : ℚ)
  | pinf
  | ninf
  | nan
deriving DecidableEq, Repr

/-- `np.isnan` on a scalar: true exactly on NaN (false on infinities). -/
def PyFloat.isnan : PyFloat → Bool
  | .nan => true
  | _ => false

/-- `np.isfinite` on a scalar: true exactly on finite values. -/
def PyFloat.isfinite : PyFloat → Bool
  | .fin _ => true
  | _ => false

/-- IEEE-style addition, as numpy performs it elementwise (overflow to
infinity is not modelled; the module only ever adds the constant `0.5`). -/
def PyFloat.add : PyFloat → PyFloat → PyFloat
  | .fin a, .fin b => .fin (a + b)
  | .nan, _ => .nan
  | _, .nan => .nan
  | .pinf, .ninf => .nan
  | .ninf, .pinf => .nan
  | .pinf, _ => .pinf
  | _, .pinf => .pinf
  | .ninf, _ => .ninf
  | _, .ninf => .ninf

/-- A 2-D numpy array: a list of rows of scalars. -/
abbrev Arr := List (List PyFloat)

/-- One scalar of the in-place assignment `a[np.isnan(a)] = 0`. -/
def zeroNaN (x : PyFloat) : PyFloat :=
  if x.isnan then PyFloat.fin 0 else x

/-- The statement `value[np.isnan(value)] = 0` of the source, applied to a
whole array: every NaN entry is replaced by `0`; all other entries (finite
values and infinities) are left unchanged. -/
def nanToZero (a : Arr) : Arr :=
  a.map (fun row => row.map zeroNaN)

/-- Follows the spec's words, not the source: "default numeric sanitization
(mapping non-finite values to zero before rendering)" — every non-finite
entry (NaN and both infinities) is replaced by `0`.  Used to compare the
spec's sanitization against the one the code performs. -/
def specNonFiniteToZero (a : Arr) : Arr :=
  a.map (fun row => row.map (fun x => if x.isfinite then x else PyFloat.fin 0))

/-- The in-place `vertices += 0.5` of `RGB_identity_cube`, elementwise. -/
def addHalf (a : Arr) : Arr :=
  a.map (fun row => row.map (fun x => x.add (PyFloat.fin (1 / 2))))

/-- Decidable check that a scalar is a finite value within `[lo, hi]`. -/
def finIn (x : PyFloat) (lo hi : ℚ) : Bool :=
  match x with
  | .fin q => decide (lo ≤ q ∧ q ≤ hi)
  | _ => false

/-- Python truthiness of an optional colour argument (`not uniform_colour`
in the source negates this): `None` and the empty sequence are falsy, a
non-empty sequence is truthy. -/
def pyTruthy : Option (List PyFloat) → Bool
  | none => false
  | some [] => false
  | some (_ :: _) => true

/-- The fields of a `colour.RGB_Colourspace` instance the module reads:
`whitepoint`, `RGB_to_XYZ_matrix` and `primaries`. -/
structure Colourspace where
  whitepoint : List PyFloat
  RGB_to_XYZ_matrix : Arr
  primaries : Arr
deriving DecidableEq, Repr

/-- The external library routines the module calls, as an abstract
environment.  `create_box` returns the tessellated vertex positions and
per-vertex colours (the `'position'` and `'color'` fields of vispy's
structured vertex array).  The two lookup functions return `none` where the
Python library would raise (unknown colourspace name, missing dictionary
key). -/
structure Env where
  create_box : Nat → Nat → Nat → Option (List String) → Arr × Arr
  get_RGB_colourspace : String → Option Colourspace
  RGB_to_XYZ : Arr → List PyFloat → List PyFloat → Arr → Arr
  XYZ_to_reference_colourspace : Arr → List PyFloat → String → Arr
  xy_to_XYZ : Arr → Arr
  CHROMATICITY_DIAGRAM_TRANSFORMATIONS : String → Option (Arr → List PyFloat → Arr)
  DEFAULT_PLOTTING_ILLUMINANT : List PyFloat

/-- The state of a `colour_analysis.visuals.Box` instance: its construction
parameters and its current mesh vertex positions (`mesh_data`). -/
structure BoxData where
  width_segments : Nat
  height_segments : Nat
  depth_segments : Nat
  planes : Option (List String)
  uniform_colour : Option (List PyFloat)
  uniform_opacity : PyFloat
  vertex_colours : Option Arr
  wireframe : Bool
  wireframe_offset : Option (Int × Int)
  vertices : Arr
deriving DecidableEq, Repr

/-- What a scene-graph record holds: a bare `vispy.scene.visuals.Node`, a
`Box` with its data, or a `vispy.scene.visuals.Line` with its point array,
colour argument and width. -/
inductive Payload where
  | node
  | box (b : BoxData)
  | line (pos : Arr) (color : List (List PyFloat)) (width : PyFloat)
deriving DecidableEq, Repr

/-- One scene-graph object: its parent (an index into the world, or `none`)
and its payload. -/
structure NodeRec where
  parent : Option Nat
  payload : Payload
deriving DecidableEq, Repr

/-- The scene-graph store: object `i` is the record at index `i`; creating a
visual appends a record at index `w.length`. -/
abbrev World := List NodeRec

/-- Exceptions the module can propagate from the external libraries. -/
inductive PyErr where
  | lookupFailure (name : String)
  | keyError (key : String)
  | indexError
deriving DecidableEq, Repr

/-- `mesh_data.get_vertices()` on object `i` (empty if `i` is not a box). -/
def get_vertices (w : World) (i : Nat) : Arr :=
  match w[i]? with
  | some r =>
    match r.payload with
    | .box b => b.vertices
    | _ => []
  | none => []

/-- Replace the mesh vertices stored in one record (no-op on non-boxes). -/
def setVerts (r : NodeRec) (v : Arr) : NodeRec :=
  match r.payload with
  | .box b => { r with payload := .box { b with vertices := v } }
  | _ => r

/-- `mesh_data.set_vertices(v)` on object `i`: update that record in place. -/
def set_vertices : World → Nat → Arr → World
  | [], _, _ => []
  | r :: rs, 0, v => setVerts r v :: rs
  | r :: rs, n + 1, v => r :: set_vertices rs n v

/-- The children of object `i`: every record whose parent is `i`. -/
def childrenOf (w : World) (i : Nat) : List NodeRec :=
  w.filter (fun r => r.parent = some i)

/-- The mesh vertices of a record, when it is a box. -/
def boxVerts : Payload → Option Arr
  | .box b => some b.vertices
  | _ => none

/-- Whether a payload is a `Box` mesh. -/
def isBoxP : Payload → Bool
  | .box _ => true
  | _ => false

/-- Whether a payload is a `Line`. -/
def isLineP : Payload → Bool
  | .line _ _ _ => true
  | _ => false

/-- The `vertex_colours` stored by box `i` (used for per-vertex colouring). -/
def vertexColoursOf (w : World) (i : Nat) : Option Arr :=
  match w[i]? with
  | some r =>
    match r.payload with
    | .box b => b.vertex_colours
    | _ => none
  | none => none

/-- The point array handed to the `Line` stored at index `i`. -/
def linePointsOf (w : World) (i : Nat) : Arr :=
  match w[i]? with
  | some r =>
    match r.payload with
    | .line pos _ _ => pos
    | _ => []
  | none => []

/-- The colour argument handed to the `Line` stored at index `i`. -/
def lineColourOf (w : World) (i : Nat) : List (List PyFloat) :=
  match w[i]? with
  | some r =>
    match r.payload with
    | .line _ c _ => c
    | _ => []
  | none => []

/-- Modelled from the spec: the `colour_analysis.visuals.Box` class is part
of this repository but not under `src/`.  Per the spec's data model ("A set
of 3D vertex positions (one cube's worth, tessellated) representing the unit
RGB cube"), the box builds its mesh from the external `create_box`
tessellation with the given segment counts and planes, stores the supplied
colour/opacity/wireframe parameters, and is attached to `parent` in the
scene graph. -/
def Box_make (env : Env) (width_segments height_segments depth_segments : Nat)
    (planes : Option (List String)) (uniform_colour : Option (List PyFloat))
    (uniform_opacity : PyFloat) (vertex_colours : Option Arr) (wireframe : Bool)
    (wireframe_offset : Option (Int × Int)) (parent : Option Nat) (w : World) :
    Nat × World :=
  (w.length,
   w ++ [{ parent := parent,
           payload := Payload.box
             { width_segments := width_segments,
               height_segments := height_segments,
               depth_segments := depth_segments,
               planes := planes,
               uniform_colour := uniform_colour,
               uniform_opacity := uniform_opacity,
               vertex_colours := vertex_colours,
               wireframe := wireframe,
               wireframe_offset := wireframe_offset,
               vertices :=
                 (env.create_box width_segments height_segments depth_segments
                   planes).1 } }])

/-- Source lines 87–110: tessellate with `create_box`, take the per-vertex
colours when `vertex_colours` is true, build the `Box` (with
`wireframe_offset=(1, 1)`), then read its mesh vertices, add `0.5` to every
coordinate in place, and write them back. -/
def RGB_identity_cube (env : Env)
    (width_segments height_segments depth_segments : Nat)
    (planes : Option (List String)) (uniform_colour : Option (List PyFloat))
    (uniform_opacity : PyFloat) (vertex_colours : Bool) (wireframe : Bool)
    (parent : Option Nat) (w : World) : Nat × World :=
  let colours :=
    (env.create_box width_segments height_segments depth_segments planes).2
  let vcs : Option Arr := if vertex_colours then some colours else none
  let iw := Box_make env width_segments height_segments depth_segments planes
    uniform_colour uniform_opacity vcs wireframe (some (1, 1)) parent w
  let v := get_vertices iw.2 iw.1
  (iw.1, set_vertices iw.2 iw.1 (addHalf v))

/-- Source lines 113–199: create a `Node` under `parent`, resolve the
colourspace name (propagating the lookup failure), build the filled identity
cube as a child, push its vertices through `RGB_to_XYZ` (whitepoint used as
both source and target) and `XYZ_to_reference_colourspace`, zero the NaN
entries, write the result back as the cube's vertices, and — when
`wireframe` — build a second, wireframe identity cube and give it the same
vertex array.  Returns the node's index together with the updated world. -/
def RGB_colourspace_volume_visual (env : Env)
    (colourspace reference_colourspace : String) (segments : Nat)
    (uniform_colour : Option (List PyFloat)) (uniform_opacity : PyFloat)
    (wireframe : Bool) (wireframe_colour : Option (List PyFloat))
    (wireframe_opacity : PyFloat) (parent : Option Nat) (w : World) :
    Except PyErr Nat × World :=
  let node := w.length
  let w0 := w ++ [{ parent := parent, payload := Payload.node }]
  match env.get_RGB_colourspace colourspace with
  | none => (Except.error (PyErr.lookupFailure colourspace), w0)
  | some cs =>
    let fw := RGB_identity_cube env segments segments segments none
      uniform_colour uniform_opacity (!pyTruthy uniform_colour) false
      (some node) w0
    let vertices := get_vertices fw.2 fw.1
    let XYZ := env.RGB_to_XYZ vertices cs.whitepoint cs.whitepoint
      cs.RGB_to_XYZ_matrix
    let value := nanToZero
      (env.XYZ_to_reference_colourspace XYZ cs.whitepoint reference_colourspace)
    let w2 := set_vertices fw.2 fw.1 value
    if wireframe then
      let ww := RGB_identity_cube env segments segments segments none
        wireframe_colour wireframe_opacity (!pyTruthy wireframe_colour) true
        (some node) w2
      (Except.ok node, set_vertices ww.2 ww.1 value)
    else
      (Except.ok node, w2)

/-- Source lines 202–263: default `uniform_colour` to `(0.8, 0.8, 0.8)`,
resolve the colourspace name and the diagram's `XYZ_to_ij` transformation
(propagating either lookup failure), map the primaries through `xy_to_XYZ`
and `XYZ_to_ij` with the default plotting illuminant, stack the last row in
front and the first row behind (`np.vstack((ij[-1], ij, ij[0]))`), zero the
NaN entries, and build a `Line` under `parent` whose colour argument is the
one-element tuple holding `hstack((uniform_colour, uniform_opacity))`. -/
def RGB_colourspace_triangle_visual (env : Env) (colourspace diagram : String)
    (uniform_colour : Option (List PyFloat)) (uniform_opacity : PyFloat)
    (width : PyFloat) (parent : Option Nat) (w : World) :
    Except PyErr Nat × World :=
  let uc := match uniform_colour with
    | none => [PyFloat.fin (4 / 5), PyFloat.fin (4 / 5), PyFloat.fin (4 / 5)]
    | some c => c
  match env.get_RGB_colourspace colourspace with
  | none => (Except.error (PyErr.lookupFailure colourspace), w)
  | some cs =>
    match env.CHROMATICITY_DIAGRAM_TRANSFORMATIONS diagram with
    | none => (Except.error (PyErr.keyError diagram), w)
    | some XYZ_to_ij =>
      let ij := XYZ_to_ij (env.xy_to_XYZ cs.primaries)
        env.DEFAULT_PLOTTING_ILLUMINANT
      match ij.getLast?, ij.head? with
      | some lastRow, some headRow =>
        let pts := nanToZero (lastRow :: (ij ++ [headRow]))
        let RGB := [uc ++ [uniform_opacity]]
        (Except.ok w.length,
         w ++ [{ parent := parent, payload := Payload.line pts RGB width }])
      | _, _ => (Except.error PyErr.indexError, w)

/-- Closed form of the box record produced by `RGB_identity_cube`: the
construction parameters, the optional tessellation colours, and the
tessellated vertices shifted by `+0.5`. -/
def identityBoxData (env : Env)
    (width_segments height_segments depth_segments : Nat)
    (planes : Option (List String)) (uniform_colour : Option (List PyFloat))
    (uniform_opacity : PyFloat) (vertex_colours : Bool) (wireframe : Bool) :
    BoxData :=
  { width_segments := width_segments,
    height_segments := height_segments,
    depth_segments := depth_segments,
    planes := planes,
    uniform_colour := uniform_colour,
    uniform_opacity := uniform_opacity,
    vertex_colours := if vertex_colours then
      some (env.create_box width_segments height_segments depth_segments
        planes).2
      else none,
    wireframe := wireframe,
    wireframe_offset := some (1, 1),
    vertices := addHalf
      (env.create_box width_segments height_segments depth_segments planes).1 }

/-- The array written back as the filled cube's vertices by
`RGB_colourspace_volume_visual`: the shifted tessellation pushed through the
two conversions, with NaN entries zeroed. -/
def volumeValue (env : Env) (cs : Colourspace) (reference_colourspace : String)
    (segments : Nat) : Arr :=
  nanToZero
    (env.XYZ_to_reference_colourspace
      (env.RGB_to_XYZ (addHalf (env.create_box segments segments segments none).1)
        cs.whitepoint cs.whitepoint cs.RGB_to_XYZ_matrix)
      cs.whitepoint reference_colourspace)

/-- A sample colourspace value used to instantiate theorems at concrete
inputs. -/
def csA : Colourspace :=
  { whitepoint := [PyFloat.fin (31 / 100), PyFloat.fin (33 / 100)],
    RGB_to_XYZ_matrix :=
      [[PyFloat.fin 1, PyFloat.fin 0, PyFloat.fin 0],
       [PyFloat.fin 0, PyFloat.fin 1, PyFloat.fin 0],
       [PyFloat.fin 0, PyFloat.fin 0, PyFloat.fin 1]],
    primaries :=
      [[PyFloat.fin (64 / 100), PyFloat.fin (33 / 100)],
       [PyFloat.fin (3 / 10), PyFloat.fin (6 / 10)],
       [PyFloat.fin (15 / 100), PyFloat.fin (6 / 100)]] }

/-- A concrete environment in which every lookup succeeds and the colour
transforms are identities; the tessellation is a two-vertex box whose
coordinates span `[-1/2, 1/2]`. -/
def EnvA : Env :=
  { create_box := fun _ _ _ _ =>
      ([[PyFloat.fin (-1 / 2), PyFloat.fin (-1 / 2), PyFloat.fin (-1 / 2)],
        [PyFloat.fin (1 / 2), PyFloat.fin (1 / 2), PyFloat.fin (1 / 2)]],
       [[PyFloat.fin 0, PyFloat.fin 0, PyFloat.fin 0, PyFloat.fin 1],
        [PyFloat.fin 1, PyFloat.fin 1, PyFloat.fin 1, PyFloat.fin 1]]),
    get_RGB_colourspace := fun _ => some csA,
    RGB_to_XYZ := fun v _ _ _ => v,
    XYZ_to_reference_colourspace := fun v _ _ => v,
    xy_to_XYZ := fun a => a,
    CHROMATICITY_DIAGRAM_TRANSFORMATIONS := fun _ => some (fun a _ => a),
    DEFAULT_PLOTTING_ILLUMINANT := [PyFloat.fin (31 / 100), PyFloat.fin (33 / 100)] }

/-- A concrete environment in which both name lookups fail. -/
def EnvNone : Env :=
  { EnvA with
    get_RGB_colourspace := fun _ => none,
    CHROMATICITY_DIAGRAM_TRANSFORMATIONS := fun _ => none }

/-- A concrete environment in which the colourspace lookup succeeds but the
chromaticity-diagram lookup fails. -/
def EnvB : Env :=
  { EnvA with CHROMATICITY_DIAGRAM_TRANSFORMATIONS := fun _ => none }

/-- A concrete environment in which `XYZ_to_reference_colourspace` produces
a positive infinity, exercising the sanitization step on a non-finite,
non-NaN value. -/
def EnvBad : Env :=
  { EnvA with
    XYZ_to_reference_colourspace := fun _ _ _ =>
      [[PyFloat.pinf, PyFloat.fin 0, PyFloat.fin 0]] }

/-- A record appended at the end of the world sits at index `w.length`. -/
theorem getElem_append_len (w : World) (r : NodeRec) (rs : World) :
    (w ++ r :: rs)[w.length]? = some r := by
  induction w with
  | nil => simp
  | cons a as ih => simpa using ih

/-- `set_vertices` at the index right past a prefix rewrites exactly the
record there. -/
theorem set_vertices_append (w : World) (r : NodeRec) (rs : World) (v : Arr) :
    set_vertices (w ++ r :: rs) w.length v = w ++ setVerts r v :: rs := by
  induction w with
  | nil => rfl
  | cons a as ih => simp [set_vertices, ih]

/-- Reading the vertices of a box record appended right past a prefix. -/
theorem get_vertices_append_box (w : World) (p : Option Nat) (b : BoxData)
    (rs : World) :
    get_vertices (w ++ ⟨p, Payload.box b⟩ :: rs) w.length = b.vertices := by
  unfold get_vertices
  rw [getElem_append_len]

/-- Unfolding `RGB_identity_cube`: it appends exactly one box record, whose
data is `identityBoxData`, and returns its index. -/
theorem RGB_identity_cube_run (env : Env) (ws hs ds : Nat)
    (pl : Option (List String)) (uc : Option (List PyFloat)) (uo : PyFloat)
    (vc wf : Bool) (parent : Option Nat) (w : World) :
    RGB_identity_cube env ws hs ds pl uc uo vc wf parent w =
      (w.length,
       w ++ [⟨parent,
         Payload.box (identityBoxData env ws hs ds pl uc uo vc wf)⟩]) := by
  simp [RGB_identity_cube, Box_make, identityBoxData, get_vertices_append_box,
    set_vertices_append, setVerts]

/-- Unfolding `RGB_colourspace_volume_visual` on a resolvable colourspace
name: it appends a node record, a filled cube whose vertices are
`volumeValue`, and — when `wireframe` — a wireframe cube with the same
vertices. -/
theorem RGB_colourspace_volume_visual_run (env : Env) (c rc : String)
    (seg : Nat) (uc : Option (List PyFloat)) (uo : PyFloat) (wf : Bool)
    (wc : Option (List PyFloat)) (wo : PyFloat) (parent : Option Nat)
    (w : World) (cs : Colourspace)
    (h : env.get_RGB_colourspace c = some cs) :
    RGB_colourspace_volume_visual env c rc seg uc uo wf wc wo parent w =
      (Except.ok w.length,
       w ++ ⟨parent, Payload.node⟩ ::
         ⟨some w.length, Payload.box
           { identityBoxData env seg seg seg none uc uo (!pyTruthy uc) false with
             vertices := volumeValue env cs rc seg }⟩ ::
         (if wf then
           [⟨some w.length, Payload.box
             { identityBoxData env seg seg seg none wc wo (!pyTruthy wc) true with
               vertices := volumeValue env cs rc seg }⟩]
          else [])) := by
  cases wf <;>
    simp only [RGB_colourspace_volume_visual, h, RGB_identity_cube_run,
      get_vertices_append_box, set_vertices_append, setVerts,
      Bool.false_eq_true, if_false, if_true]
  · simp [identityBoxData, volumeValue]
  · simp [identityBoxData, volumeValue]

/-- Unfolding `RGB_colourspace_triangle_visual` on resolvable names and a
non-empty primaries projection: it appends exactly one line record. -/
theorem RGB_colourspace_triangle_visual_run (env : Env) (c d : String)
    (uc : Option (List PyFloat)) (uo width : PyFloat) (parent : Option Nat)
    (w : World) (cs : Colourspace) (T : Arr → List PyFloat → Arr)
    (lr hr : List PyFloat)
    (h : env.get_RGB_colourspace c = some cs)
    (hT : env.CHROMATICITY_DIAGRAM_TRANSFORMATIONS d = some T)
    (hl : (T (env.xy_to_XYZ cs.primaries)
      env.DEFAULT_PLOTTING_ILLUMINANT).getLast? = some lr)
    (hh : (T (env.xy_to_XYZ cs.primaries)
      env.DEFAULT_PLOTTING_ILLUMINANT).head? = some hr) :
    RGB_colourspace_triangle_visual env c d uc uo width parent w =
      (Except.ok w.length,
       w ++ [⟨parent, Payload.line
         (nanToZero (lr :: (T (env.xy_to_XYZ cs.primaries)
             env.DEFAULT_PLOTTING_ILLUMINANT ++ [hr])))
         [(match uc with
           | none => [PyFloat.fin (4 / 5), PyFloat.fin (4 / 5),
               PyFloat.fin (4 / 5)]
           | some cc => cc) ++ [uo]]
         width⟩]) := by
  simp [RGB_colourspace_triangle_visual, h, hT, hl, hh]

/-- Claim C1, counterexample: in an environment whose reference-colourspace
transform produces a positive infinity, the array set as the filled cube's
mesh vertices still contains that infinity — a non-finite entry that is not
zero — so the sanitization does not map all non-finite values to zero
(the spec-worded sanitization would have produced all zeros). -/
theorem claim_C1_counterexample :
    get_vertices (RGB_colourspace_volume_visual EnvBad "Rec. 709" "CIE xyY" 16
        none (PyFloat.fin (1 / 2)) true none (PyFloat.fin 1) none []).2 1 =
      [[PyFloat.pinf, PyFloat.fin 0, PyFloat.fin 0]] ∧
    PyFloat.pinf.isfinite = false ∧
    PyFloat.pinf ≠ PyFloat.fin 0 ∧
    specNonFiniteToZero [[PyFloat.pinf, PyFloat.fin 0, PyFloat.fin 0]] =
      [[PyFloat.fin 0, PyFloat.fin 0, PyFloat.fin 0]] := by
  refine ⟨?_, rfl, by decide, rfl⟩
  rfl

/-- Claim C1, amended: the sanitization zeroes exactly the NaN entries, not
all non-finite entries: the filled cube's mesh vertices are the NaN-zeroed
transform result, the points handed to the `Line` are the NaN-zeroed
stacked chromaticity array, and a NaN-zeroed array contains no NaN entry
(infinities pass through unchanged, as the counterexample shows). -/
theorem claim_C1_theorem (env : Env) (c rc d : String) (seg : Nat)
    (uc wc uc2 : Option (List PyFloat)) (uo wo uo2 width : PyFloat)
    (wf : Bool) (parent parent2 : Option Nat) (cs : Colourspace)
    (T : Arr → List PyFloat → Arr) (lr hr : List PyFloat)
    (h : env.get_RGB_colourspace c = some cs)
    (hT : env.CHROMATICITY_DIAGRAM_TRANSFORMATIONS d = some T)
    (hl : (T (env.xy_to_XYZ cs.primaries)
      env.DEFAULT_PLOTTING_ILLUMINANT).getLast? = some lr)
    (hh : (T (env.xy_to_XYZ cs.primaries)
      env.DEFAULT_PLOTTING_ILLUMINANT).head? = some hr) :
    get_vertices (RGB_colourspace_volume_visual env c rc seg uc uo wf wc wo
        parent []).2 1 =
      nanToZero
        (env.XYZ_to_reference_colourspace
          (env.RGB_to_XYZ (addHalf (env.create_box seg seg seg none).1)
            cs.whitepoint cs.whitepoint cs.RGB_to_XYZ_matrix)
          cs.whitepoint rc) ∧
    linePointsOf (RGB_colourspace_triangle_visual env c d uc2 uo2 width
        parent2 []).2 0 =
      nanToZero (lr :: (T (env.xy_to_XYZ cs.primaries)
        env.DEFAULT_PLOTTING_ILLUMINANT ++ [hr])) ∧
    (∀ a : Arr, ∀ row ∈ nanToZero a, ∀ x ∈ row, x.isnan = false) := by
  refine ⟨?_, ?_, ?_⟩
  · rw [RGB_colourspace_volume_visual_run env c rc seg uc uo wf wc wo parent
      [] cs h]
    simp [get_vertices, volumeValue, identityBoxData]
  · rw [RGB_colourspace_triangle_visual_run env c d uc2 uo2 width parent2 []
      cs T lr hr h hT hl hh]
    simp [linePointsOf]
  · intro a row hrow x hx
    simp [nanToZero] at hrow
    obtain ⟨r0, _, rfl⟩ := hrow
    simp at hx
    obtain ⟨y, _, rfl⟩ := hx
    cases y <;> simp [zeroNaN, PyFloat.isnan]

/-- Claim C1, witness: the amended statement evaluated in the concrete
environment `EnvA`. -/
theorem claim_C1_witness :
    EnvA.get_RGB_colourspace "Rec. 709" = some csA ∧
    get_vertices (RGB_colourspace_volume_visual EnvA "Rec. 709" "CIE xyY" 16
        none (PyFloat.fin (1 / 2)) true none (PyFloat.fin 1) none []).2 1 =
      nanToZero
        (EnvA.XYZ_to_reference_colourspace
          (EnvA.RGB_to_XYZ (addHalf (EnvA.create_box 16 16 16 none).1)
            csA.whitepoint csA.whitepoint csA.RGB_to_XYZ_matrix)
          csA.whitepoint "CIE xyY") :=
  ⟨rfl,
   (claim_C1_theorem EnvA "Rec. 709" "CIE xyY" "CIE 1931" 16 none none none
     (PyFloat.fin (1 / 2)) (PyFloat.fin 1) (PyFloat.fin 1) (PyFloat.fin 4)
     true none none csA (fun a _ => a)
     [PyFloat.fin (15 / 100), PyFloat.fin (6 / 100)]
     [PyFloat.fin (64 / 100), PyFloat.fin (33 / 100)]
     rfl rfl rfl rfl).1⟩

/-- Claim C2: the displayed gamut-volume vertices are the tessellated cube
vertices pushed through `RGB_to_XYZ` (the colourspace's whitepoint as both
source and target whitepoint, with its `RGB_to_XYZ_matrix`) and then
`XYZ_to_reference_colourspace` (the colourspace's whitepoint and the given
reference-colourspace name), NaN-zeroed, and that array is what is set as
the filled cube's vertices. -/
theorem claim_C2_theorem (env : Env) (c rc : String) (seg : Nat)
    (uc wc : Option (List PyFloat)) (uo wo : PyFloat) (wf : Bool)
    (parent : Option Nat) (cs : Colourspace)
    (h : env.get_RGB_colourspace c = some cs) :
    get_vertices (RGB_colourspace_volume_visual env c rc seg uc uo wf wc wo
        parent []).2 1 =
      nanToZero
        (env.XYZ_to_reference_colourspace
          (env.RGB_to_XYZ
            (identityBoxData env seg seg seg none uc uo (!pyTruthy uc)
              false).vertices
            cs.whitepoint cs.whitepoint cs.RGB_to_XYZ_matrix)
          cs.whitepoint rc) := by
  rw [RGB_colourspace_volume_visual_run env c rc seg uc uo wf wc wo parent
    [] cs h]
  simp [get_vertices, volumeValue, identityBoxData]

/-- Claim C2, witness: the statement evaluated in `EnvA`. -/
theorem claim_C2_witness :
    EnvA.get_RGB_colourspace "Rec. 709" = some csA ∧
    get_vertices (RGB_colourspace_volume_visual EnvA "Rec. 709" "CIE xyY" 16
        none (PyFloat.fin (1 / 2)) true none (PyFloat.fin 1) none []).2 1 =
      nanToZero
        (EnvA.XYZ_to_reference_colourspace
          (EnvA.RGB_to_XYZ
            (identityBoxData EnvA 16 16 16 none none (PyFloat.fin (1 / 2))
              (!pyTruthy none) false).vertices
            csA.whitepoint csA.whitepoint csA.RGB_to_XYZ_matrix)
          csA.whitepoint "CIE xyY") :=
  ⟨rfl,
   claim_C2_theorem EnvA "Rec. 709" "CIE xyY" 16 none none
     (PyFloat.fin (1 / 2)) (PyFloat.fin 1) true none csA rfl⟩

/-- Claim C3: `RGB_identity_cube` returns a box whose vertex positions are
the `create_box` tessellation translated by `+0.5` in every coordinate, and
whenever the tessellation lies in the origin-centred unit box
`[-1/2, 1/2]^3`, every resulting vertex lies in the unit RGB cube
`[0, 1]^3`. -/
theorem claim_C3_theorem (env : Env) (ws hs ds : Nat)
    (pl : Option (List String)) (uc : Option (List PyFloat)) (uo : PyFloat)
    (vc wf : Bool) (parent : Option Nat) (w : World) :
    get_vertices (RGB_identity_cube env ws hs ds pl uc uo vc wf parent w).2
        (RGB_identity_cube env ws hs ds pl uc uo vc wf parent w).1 =
      addHalf (env.create_box ws hs ds pl).1 ∧
    (((env.create_box ws hs ds pl).1.all fun row =>
        row.all fun x => finIn x (-(1 / 2)) (1 / 2)) = true →
      ∀ row ∈ get_vertices
          (RGB_identity_cube env ws hs ds pl uc uo vc wf parent w).2
          (RGB_identity_cube env ws hs ds pl uc uo vc wf parent w).1,
        ∀ x ∈ row, finIn x 0 1 = true) := by
  have hrun := RGB_identity_cube_run env ws hs ds pl uc uo vc wf parent w
  have hv : get_vertices
      (RGB_identity_cube env ws hs ds pl uc uo vc wf parent w).2
      (RGB_identity_cube env ws hs ds pl uc uo vc wf parent w).1 =
      addHalf (env.create_box ws hs ds pl).1 := by
    rw [hrun]
    simp [get_vertices_append_box, identityBoxData]
  refine ⟨hv, ?_⟩
  intro hb0 row hrow x hx
  simp only [List.all_eq_true] at hb0
  have hb : ∀ row0 ∈ (env.create_box ws hs ds pl).1, ∀ y ∈ row0,
      finIn y (-(1 / 2)) (1 / 2) = true := by
    intro row0 h0 y hy0
    exact hb0 row0 h0 y hy0
  rw [hv] at hrow
  simp [addHalf] at hrow
  obtain ⟨r0, hr0, rfl⟩ := hrow
  simp at hx
  obtain ⟨y, hy, rfl⟩ := hx
  have hbd := hb r0 hr0 y hy
  cases y with
  | fin q =>
    simp [finIn, PyFloat.add] at hbd ⊢
    constructor <;> linarith [hbd.1, hbd.2]
  | pinf => simp [finIn] at hbd
  | ninf => simp [finIn] at hbd
  | nan => simp [finIn] at hbd

/-- Claim C3, witness: evaluated in `EnvA`, whose tessellation spans
`[-1/2, 1/2]^3`. -/
theorem claim_C3_witness :
    ((EnvA.create_box 16 16 16 none).1.all fun row =>
      row.all fun x => finIn x (-(1 / 2)) (1 / 2)) = true ∧
    (∀ row ∈ get_vertices
        (RGB_identity_cube EnvA 16 16 16 none none (PyFloat.fin 1) true false
          none []).2
        (RGB_identity_cube EnvA 16 16 16 none none (PyFloat.fin 1) true false
          none []).1,
      ∀ x ∈ row, finIn x 0 1 = true) :=
  ⟨by norm_num [EnvA, finIn],
   (claim_C3_theorem EnvA 16 16 16 none none (PyFloat.fin 1) true false none
     []).2 (by norm_num [EnvA, finIn])⟩

/-- The last element of a cons-then-concat list is the concatenated one. -/
theorem getLast_cons_concat (a b : List PyFloat) (l : Arr) :
    (a :: (l ++ [b])).getLast? = some b := by
  rw [show a :: (l ++ [b]) = (a :: l) ++ [b] from rfl]
  exact List.getLast?_concat _

/-- Claim C4: the point sequence handed to the `Line` closes the polygon
over the projected primaries: it is the stacked array
`vstack((ij[-1], ij, ij[0]))` (NaN-zeroed), has `n + 2` rows for `n`
projected primaries, starts at the last primary's chromaticity coordinates
and ends at the first primary's. -/
theorem claim_C4_theorem (env : Env) (c d : String)
    (uc : Option (List PyFloat)) (uo width : PyFloat) (parent : Option Nat)
    (cs : Colourspace) (T : Arr → List PyFloat → Arr) (lr hr : List PyFloat)
    (h : env.get_RGB_colourspace c = some cs)
    (hT : env.CHROMATICITY_DIAGRAM_TRANSFORMATIONS d = some T)
    (hl : (T (env.xy_to_XYZ cs.primaries)
      env.DEFAULT_PLOTTING_ILLUMINANT).getLast? = some lr)
    (hh : (T (env.xy_to_XYZ cs.primaries)
      env.DEFAULT_PLOTTING_ILLUMINANT).head? = some hr) :
    linePointsOf (RGB_colourspace_triangle_visual env c d uc uo width parent
        []).2 0 =
      nanToZero (lr :: (T (env.xy_to_XYZ cs.primaries)
        env.DEFAULT_PLOTTING_ILLUMINANT ++ [hr])) ∧
    (linePointsOf (RGB_colourspace_triangle_visual env c d uc uo width parent
        []).2 0).length =
      (T (env.xy_to_XYZ cs.primaries)
        env.DEFAULT_PLOTTING_ILLUMINANT).length + 2 ∧
    (linePointsOf (RGB_colourspace_triangle_visual env c d uc uo width parent
        []).2 0).head? = some (lr.map zeroNaN) ∧
    (linePointsOf (RGB_colourspace_triangle_visual env c d uc uo width parent
        []).2 0).getLast? = some (hr.map zeroNaN) := by
  have hpts : linePointsOf (RGB_colourspace_triangle_visual env c d uc uo
      width parent []).2 0 =
      nanToZero (lr :: (T (env.xy_to_XYZ cs.primaries)
        env.DEFAULT_PLOTTING_ILLUMINANT ++ [hr])) := by
    rw [RGB_colourspace_triangle_visual_run env c d uc uo width parent []
      cs T lr hr h hT hl hh]
    simp [linePointsOf]
  refine ⟨hpts, ?_, ?_, ?_⟩
  · rw [hpts]
    simp [nanToZero]
  · rw [hpts]
    simp [nanToZero]
  · rw [hpts]
    simp only [nanToZero, List.map_cons, List.map_append, List.map_nil]
    exact getLast_cons_concat _ _ _

/-- Claim C4, witness: evaluated in `EnvA` with its three primaries. -/
theorem claim_C4_witness :
    ((fun a _ => a : Arr → List PyFloat → Arr)
      (EnvA.xy_to_XYZ csA.primaries)
      EnvA.DEFAULT_PLOTTING_ILLUMINANT).getLast? =
      some [PyFloat.fin (15 / 100), PyFloat.fin (6 / 100)] ∧
    (linePointsOf (RGB_colourspace_triangle_visual EnvA "Rec. 709" "CIE 1931"
        none (PyFloat.fin 1) (PyFloat.fin 4) none []).2 0).length =
      ((fun a _ => a : Arr → List PyFloat → Arr)
        (EnvA.xy_to_XYZ csA.primaries)
        EnvA.DEFAULT_PLOTTING_ILLUMINANT).length + 2 :=
  ⟨rfl,
   (claim_C4_theorem EnvA "Rec. 709" "CIE 1931" none (PyFloat.fin 1)
     (PyFloat.fin 4) none csA (fun a _ => a)
     [PyFloat.fin (15 / 100), PyFloat.fin (6 / 100)]
     [PyFloat.fin (64 / 100), PyFloat.fin (33 / 100)]
     rfl rfl rfl rfl).2.1⟩

/-- Claim C5: an unresolvable colourspace name makes
`RGB_colourspace_volume_visual` (and `RGB_colourspace_triangle_visual`)
propagate the lookup failure, and an unknown diagram name makes the
triangle visual propagate the key error; in each case only the error is
returned, never a visual. -/
theorem claim_C5_theorem (env1 env2 : Env) (c c2 rc d : String) (seg : Nat)
    (uc wc uc2 : Option (List PyFloat)) (uo wo uo2 width : PyFloat)
    (wf : Bool) (p1 p2 p3 : Option Nat) (w1 w2 w3 : World) (cs : Colourspace)
    (h1 : env1.get_RGB_colourspace c = none)
    (h2 : env2.get_RGB_colourspace c2 = some cs)
    (h3 : env2.CHROMATICITY_DIAGRAM_TRANSFORMATIONS d = none) :
    (RGB_colourspace_volume_visual env1 c rc seg uc uo wf wc wo p1 w1).1 =
      Except.error (PyErr.lookupFailure c) ∧
    (RGB_colourspace_triangle_visual env1 c d uc2 uo2 width p2 w2).1 =
      Except.error (PyErr.lookupFailure c) ∧
    (RGB_colourspace_triangle_visual env2 c2 d uc2 uo2 width p3 w3).1 =
      Except.error (PyErr.keyError d) := by
  refine ⟨?_, ?_, ?_⟩
  · simp [RGB_colourspace_volume_visual, h1]
  · simp [RGB_colourspace_triangle_visual, h1]
  · simp [RGB_colourspace_triangle_visual, h2, h3]

/-- Claim C5, witness: evaluated with environments whose lookups fail. -/
theorem claim_C5_witness :
    EnvNone.get_RGB_colourspace "Rec. 709" = none ∧
    EnvB.get_RGB_colourspace "Rec. 709" = some csA ∧
    EnvB.CHROMATICITY_DIAGRAM_TRANSFORMATIONS "CIE 1931" = none ∧
    (RGB_colourspace_volume_visual EnvNone "Rec. 709" "CIE xyY" 16 none
      (PyFloat.fin 1) true none (PyFloat.fin 1) none []).1 =
      Except.error (PyErr.lookupFailure "Rec. 709") ∧
    (RGB_colourspace_triangle_visual EnvNone "Rec. 709" "CIE 1931" none
      (PyFloat.fin 1) (PyFloat.fin 4) none []).1 =
      Except.error (PyErr.lookupFailure "Rec. 709") ∧
    (RGB_colourspace_triangle_visual EnvB "Rec. 709" "CIE 1931" none
      (PyFloat.fin 1) (PyFloat.fin 4) none []).1 =
      Except.error (PyErr.keyError "CIE 1931") := by
  refine ⟨rfl, rfl, rfl, ?_⟩
  exact claim_C5_theorem EnvNone EnvB "Rec. 709" "Rec. 709" "CIE xyY"
    "CIE 1931" 16 none none none (PyFloat.fin 1) (PyFloat.fin 1)
    (PyFloat.fin 1) (PyFloat.fin 4) true none none none [] [] [] csA
    rfl rfl rfl

/-- Claim C6: on valid inputs the public constructors return scene-graph
nodes: the volume visual returns a `Node` record that takes the supplied
parent, every further record it creates is a box cube attached to that
node, and the triangle visual returns a `Line` record attached to the
supplied parent. -/
theorem claim_C6_theorem (env : Env) (c rc d : String) (seg : Nat)
    (uc wc uc2 : Option (List PyFloat)) (uo wo uo2 width : PyFloat)
    (wf : Bool) (parent parent2 : Option Nat) (cs : Colourspace)
    (T : Arr → List PyFloat → Arr) (lr hr : List PyFloat)
    (h : env.get_RGB_colourspace c = some cs)
    (hT : env.CHROMATICITY_DIAGRAM_TRANSFORMATIONS d = some T)
    (hl : (T (env.xy_to_XYZ cs.primaries)
      env.DEFAULT_PLOTTING_ILLUMINANT).getLast? = some lr)
    (hh : (T (env.xy_to_XYZ cs.primaries)
      env.DEFAULT_PLOTTING_ILLUMINANT).head? = some hr) :
    (RGB_colourspace_volume_visual env c rc seg uc uo wf wc wo parent []).1 =
      Except.ok 0 ∧
    (RGB_colourspace_volume_visual env c rc seg uc uo wf wc wo parent
      []).2[0]? = some ⟨parent, Payload.node⟩ ∧
    (∀ r ∈ (RGB_colourspace_volume_visual env c rc seg uc uo wf wc wo parent
        []).2.drop 1, r.parent = some 0 ∧ isBoxP r.payload = true) ∧
    (RGB_colourspace_triangle_visual env c d uc2 uo2 width parent2 []).1 =
      Except.ok 0 ∧
    (RGB_colourspace_triangle_visual env c d uc2 uo2 width parent2
      []).2.map (fun r => (r.parent, isLineP r.payload)) = [(parent2, true)]
    := by
  rw [RGB_colourspace_volume_visual_run env c rc seg uc uo wf wc wo parent
    [] cs h,
    RGB_colourspace_triangle_visual_run env c d uc2 uo2 width parent2 []
    cs T lr hr h hT hl hh]
  cases wf <;> simp [isBoxP, isLineP]

/-- Claim C6, witness: evaluated in `EnvA`. -/
theorem claim_C6_witness :
    EnvA.get_RGB_colourspace "Rec. 709" = some csA ∧
    (RGB_colourspace_volume_visual EnvA "Rec. 709" "CIE xyY" 16 none
      (PyFloat.fin 1) true none (PyFloat.fin 1) (some 7) []).1 =
      Except.ok 0 ∧
    (RGB_colourspace_triangle_visual EnvA "Rec. 709" "CIE 1931" none
      (PyFloat.fin 1) (PyFloat.fin 4) (some 7) []).1 = Except.ok 0 := by
  refine ⟨rfl, ?_, ?_⟩
  · exact (claim_C6_theorem EnvA "Rec. 709" "CIE xyY" "CIE 1931" 16 none
      none none (PyFloat.fin 1) (PyFloat.fin 1) (PyFloat.fin 1)
      (PyFloat.fin 4) true (some 7) (some 7) csA (fun a _ => a)
      [PyFloat.fin (15 / 100), PyFloat.fin (6 / 100)]
      [PyFloat.fin (64 / 100), PyFloat.fin (33 / 100)]
      rfl rfl rfl rfl).1
  · exact (claim_C6_theorem EnvA "Rec. 709" "CIE xyY" "CIE 1931" 16 none
      none none (PyFloat.fin 1) (PyFloat.fin 1) (PyFloat.fin 1)
      (PyFloat.fin 4) true (some 7) (some 7) csA (fun a _ => a)
      [PyFloat.fin (15 / 100), PyFloat.fin (6 / 100)]
      [PyFloat.fin (64 / 100), PyFloat.fin (33 / 100)]
      rfl rfl rfl rfl).2.2.2.1

/-- Claim C7: determinism and absence of shared mutable state: for each of
the three constructors, two calls with the same argument values append
records with identical payloads (vertex positions, colours, line points) —
independent of the pre-existing scene graph and of the parent — and no call
modifies any pre-existing record. -/
theorem claim_C7_theorem :
    (∀ (env : Env) (ws hs ds : Nat) (pl : Option (List String))
      (uc : Option (List PyFloat)) (uo : PyFloat) (vc wf : Bool)
      (p1 p2 : Option Nat) (w1 w2 : World),
      ((RGB_identity_cube env ws hs ds pl uc uo vc wf p1 w1).2.drop
        w1.length).map NodeRec.payload =
      ((RGB_identity_cube env ws hs ds pl uc uo vc wf p2 w2).2.drop
        w2.length).map NodeRec.payload ∧
      (RGB_identity_cube env ws hs ds pl uc uo vc wf p1 w1).2.take
        w1.length = w1) ∧
    (∀ (env : Env) (c rc : String) (seg : Nat)
      (uc wc : Option (List PyFloat)) (uo wo : PyFloat) (wf : Bool)
      (p1 p2 : Option Nat) (w1 w2 : World),
      ((RGB_colourspace_volume_visual env c rc seg uc uo wf wc wo p1
        w1).2.drop w1.length).map NodeRec.payload =
      ((RGB_colourspace_volume_visual env c rc seg uc uo wf wc wo p2
        w2).2.drop w2.length).map NodeRec.payload ∧
      (RGB_colourspace_volume_visual env c rc seg uc uo wf wc wo p1
        w1).2.take w1.length = w1) ∧
    (∀ (env : Env) (c d : String) (uc : Option (List PyFloat))
      (uo width : PyFloat) (p1 p2 : Option Nat) (w1 w2 : World),
      ((RGB_colourspace_triangle_visual env c d uc uo width p1 w1).2.drop
        w1.length).map NodeRec.payload =
      ((RGB_colourspace_triangle_visual env c d uc uo width p2 w2).2.drop
        w2.length).map NodeRec.payload ∧
      (RGB_colourspace_triangle_visual env c d uc uo width p1 w1).2.take
        w1.length = w1) := by
  refine ⟨?_, ?_, ?_⟩
  · intro env ws hs ds pl uc uo vc wf p1 p2 w1 w2
    constructor <;>
      simp [RGB_identity_cube_run, List.drop_left, List.take_left]
  · intro env c rc seg uc wc uo wo wf p1 p2 w1 w2
    rcases hcs : env.get_RGB_colourspace c with _ | cs
    · constructor <;>
        simp [RGB_colourspace_volume_visual, hcs, List.drop_left,
          List.take_left]
    · rw [RGB_colourspace_volume_visual_run env c rc seg uc uo wf wc wo p1
        w1 cs hcs,
        RGB_colourspace_volume_visual_run env c rc seg uc uo wf wc wo p2
        w2 cs hcs]
      constructor
      · cases wf <;> simp [List.drop_left]
      · simp [List.take_left]
  · intro env c d uc uo width p1 p2 w1 w2
    rcases hcs : env.get_RGB_colourspace c with _ | cs
    · constructor <;>
        simp [RGB_colourspace_triangle_visual, hcs]
    · rcases hT : env.CHROMATICITY_DIAGRAM_TRANSFORMATIONS d with _ | T
      · constructor <;>
          simp [RGB_colourspace_triangle_visual, hcs, hT]
      · rcases hL : (T (env.xy_to_XYZ cs.primaries)
          env.DEFAULT_PLOTTING_ILLUMINANT).getLast? with _ | lr
        · constructor <;>
            simp [RGB_colourspace_triangle_visual, hcs, hT, hL]
        · rcases hH : (T (env.xy_to_XYZ cs.primaries)
            env.DEFAULT_PLOTTING_ILLUMINANT).head? with _ | hr
          · constructor <;>
              simp [RGB_colourspace_triangle_visual, hcs, hT, hL, hH]
          · rw [RGB_colourspace_triangle_visual_run env c d uc uo width p1
              w1 cs T lr hr hcs hT hL hH,
              RGB_colourspace_triangle_visual_run env c d uc uo width p2
              w2 cs T lr hr hcs hT hL hH]
            constructor
            · simp [List.drop_left]
            · simp [List.take_left]

/-- Claim C8: with `wireframe` true the returned node carries exactly two
box children and both hold the very same transformed-and-sanitized vertex
array; with `wireframe` false exactly one box child is created. -/
theorem claim_C8_theorem (env : Env) (c rc : String) (seg : Nat)
    (uc wc : Option (List PyFloat)) (uo wo : PyFloat) (parent : Option Nat)
    (cs : Colourspace) (h : env.get_RGB_colourspace c = some cs)
    (hp : parent ≠ some 0) :
    (childrenOf (RGB_colourspace_volume_visual env c rc seg uc uo true wc wo
        parent []).2 0).map (fun r => boxVerts r.payload) =
      [some (volumeValue env cs rc seg), some (volumeValue env cs rc seg)] ∧
    (childrenOf (RGB_colourspace_volume_visual env c rc seg uc uo false wc wo
        parent []).2 0).map (fun r => boxVerts r.payload) =
      [some (volumeValue env cs rc seg)] := by
  rw [RGB_colourspace_volume_visual_run env c rc seg uc uo true wc wo parent
    [] cs h,
    RGB_colourspace_volume_visual_run env c rc seg uc uo false wc wo parent
    [] cs h]
  constructor <;> simp [childrenOf, boxVerts, hp]

/-- Claim C8, witness: evaluated in `EnvA`. -/
theorem claim_C8_witness :
    EnvA.get_RGB_colourspace "Rec. 709" = some csA ∧
    (some 7 : Option Nat) ≠ some 0 ∧
    (childrenOf (RGB_colourspace_volume_visual EnvA "Rec. 709" "CIE xyY" 16
        none (PyFloat.fin 1) true none (PyFloat.fin 1) (some 7) []).2 0).map
      (fun r => boxVerts r.payload) =
      [some (volumeValue EnvA csA "CIE xyY" 16),
       some (volumeValue EnvA csA "CIE xyY" 16)] :=
  ⟨rfl, by decide,
   (claim_C8_theorem EnvA "Rec. 709" "CIE xyY" 16 none none (PyFloat.fin 1)
     (PyFloat.fin 1) (some 7) csA rfl (by decide)).1⟩

/-- Claim C9: when `uniform_colour` is `None` it defaults to
`(0.8, 0.8, 0.8)`, and the colour handed to the `Line` is the one-element
tuple holding the RGBA concatenation of the colour with the opacity. -/
theorem claim_C9_theorem (env : Env) (c d : String)
    (uc : Option (List PyFloat)) (uo width : PyFloat) (parent : Option Nat)
    (cs : Colourspace) (T : Arr → List PyFloat → Arr) (lr hr : List PyFloat)
    (h : env.get_RGB_colourspace c = some cs)
    (hT : env.CHROMATICITY_DIAGRAM_TRANSFORMATIONS d = some T)
    (hl : (T (env.xy_to_XYZ cs.primaries)
      env.DEFAULT_PLOTTING_ILLUMINANT).getLast? = some lr)
    (hh : (T (env.xy_to_XYZ cs.primaries)
      env.DEFAULT_PLOTTING_ILLUMINANT).head? = some hr) :
    lineColourOf (RGB_colourspace_triangle_visual env c d uc uo width parent
        []).2 0 =
      [(match uc with
        | none => [PyFloat.fin (4 / 5), PyFloat.fin (4 / 5),
            PyFloat.fin (4 / 5)]
        | some cc => cc) ++ [uo]] ∧
    lineColourOf (RGB_colourspace_triangle_visual env c d none uo width
        parent []).2 0 =
      [[PyFloat.fin (4 / 5), PyFloat.fin (4 / 5), PyFloat.fin (4 / 5),
        uo]] := by
  rw [RGB_colourspace_triangle_visual_run env c d uc uo width parent [] cs
    T lr hr h hT hl hh,
    RGB_colourspace_triangle_visual_run env c d none uo width parent [] cs
    T lr hr h hT hl hh]
  constructor <;> simp [lineColourOf]

/-- Claim C9, witness: evaluated in `EnvA` with the defaulted colour. -/
theorem claim_C9_witness :
    EnvA.get_RGB_colourspace "Rec. 709" = some csA ∧
    lineColourOf (RGB_colourspace_triangle_visual EnvA "Rec. 709" "CIE 1931"
        none (PyFloat.fin (7 / 10)) (PyFloat.fin 4) none []).2 0 =
      [[PyFloat.fin (4 / 5), PyFloat.fin (4 / 5), PyFloat.fin (4 / 5),
        PyFloat.fin (7 / 10)]] :=
  ⟨rfl,
   (claim_C9_theorem EnvA "Rec. 709" "CIE 1931" none (PyFloat.fin (7 / 10))
     (PyFloat.fin 4) none csA (fun a _ => a)
     [PyFloat.fin (15 / 100), PyFloat.fin (6 / 100)]
     [PyFloat.fin (64 / 100), PyFloat.fin (33 / 100)]
     rfl rfl rfl rfl).2⟩

/-- Claim C10: per-vertex tessellation colours are used for a cube exactly
when the corresponding colour argument is falsy: the filled cube stores the
tessellation colours iff `uniform_colour` is falsy and the wireframe cube
stores them iff `wireframe_colour` is falsy (the flag is the Boolean
negation of the argument's truthiness). -/
theorem claim_C10_theorem (env : Env) (c rc : String) (seg : Nat)
    (uc wc : Option (List PyFloat)) (uo wo : PyFloat) (parent : Option Nat)
    (cs : Colourspace) (h : env.get_RGB_colourspace c = some cs) :
    vertexColoursOf (RGB_colourspace_volume_visual env c rc seg uc uo true
        wc wo parent []).2 1 =
      (if pyTruthy uc then none
       else some (env.create_box seg seg seg none).2) ∧
    vertexColoursOf (RGB_colourspace_volume_visual env c rc seg uc uo true
        wc wo parent []).2 2 =
      (if pyTruthy wc then none
       else some (env.create_box seg seg seg none).2) := by
  rw [RGB_colourspace_volume_visual_run env c rc seg uc uo true wc wo parent
    [] cs h]
  constructor
  · cases hpu : pyTruthy uc <;>
      simp [vertexColoursOf, identityBoxData, hpu]
  · cases hpw : pyTruthy wc <;>
      simp [vertexColoursOf, identityBoxData, hpw]

/-- Claim C10, witness: evaluated in `EnvA` with a truthy filled-cube colour
and a falsy wireframe colour. -/
theorem claim_C10_witness :
    EnvA.get_RGB_colourspace "Rec. 709" = some csA ∧
    vertexColoursOf (RGB_colourspace_volume_visual EnvA "Rec. 709" "CIE xyY"
        16 (some [PyFloat.fin 1, PyFloat.fin 0, PyFloat.fin 0])
        (PyFloat.fin 1) true none (PyFloat.fin 1) none []).2 1 =
      (if pyTruthy (some [PyFloat.fin 1, PyFloat.fin 0, PyFloat.fin 0])
       then none else some (EnvA.create_box 16 16 16 none).2) ∧
    vertexColoursOf (RGB_colourspace_volume_visual EnvA "Rec. 709" "CIE xyY"
        16 (some [PyFloat.fin 1, PyFloat.fin 0, PyFloat.fin 0])
        (PyFloat.fin 1) true none (PyFloat.fin 1) none []).2 2 =
      (if pyTruthy (none : Option (List PyFloat))
       then none else some (EnvA.create_box 16 16 16 none).2) :=
  ⟨rfl,
   (claim_C10_theorem EnvA "Rec. 709" "CIE xyY" 16
     (some [PyFloat.fin 1, PyFloat.fin 0, PyFloat.fin 0]) none
     (PyFloat.fin 1) (PyFloat.fin 1) none csA rfl).1,
   (claim_C10_theorem EnvA "Rec. 709" "CIE xyY" 16
     (some [PyFloat.fin 1, PyFloat.fin 0, PyFloat.fin 0]) none
     (PyFloat.fin 1) (PyFloat.fin 1) none csA rfl).2⟩

end ColourAnalysis
